import Mathlib

/-!
Shallow embedding of `src/sentiment_analyzer.py`: the comment-processing
pipeline of the Sentiment-Analysis-for-Non-english-Code-Review-Comments
repository.

External capabilities are modelled as function parameters:
- language detection (`langdetect.detect`) as `String → Option String`,
  where `none` stands for the `LangDetectException` raised on empty or
  ambiguous text (the only exception the source catches there);
- translation (`translate_client.translate_text`) as
  `String → String → Option String`, where `none` stands for any raised
  exception (the source catches all exceptions there);
- sentiment scoring (`TextBlob(...).sentiment`) as `String → ℚ × ℚ`,
  a total map from text to a (polarity, subjectivity) pair.
Python floats are modelled as exact rationals; the claims only exercise
values on which binary floating point and rational arithmetic agree.
Python strings are sequences of code points, as Lean strings are; string
length, slicing and upper-casing are modelled on the code-point list.
-/

set_option autoImplicit false

namespace SentimentAnalysis

/-- Line 13 of the source: `SUPPORTED_LANGUAGES = ['de', 'es']`. -/
def SUPPORTED_LANGUAGES : List String := ["de", "es"]

/-- Lines 23-29: `detect_language`. Runs the detection capability; on a
detection exception returns `None`; a detected language is returned only
when it is in `SUPPORTED_LANGUAGES`, otherwise `None`. -/
def detect_language (detectCap : String → Option String) (text : String) :
    Option String :=
  match detectCap text with
  | some lang => if lang ∈ SUPPORTED_LANGUAGES then some lang else none
  | none => none

/-- Lines 31-42: `translate_to_english`. Calls the translation capability
with the given source language; on any exception returns the input text
unchanged. -/
def translate_to_english (translateCap : String → String → Option String)
    (text source_language : String) : String :=
  match translateCap text source_language with
  | some translated => translated
  | none => text

/-- Python's round-to-nearest-integer with ties to even (the semantics of
the built-in `round` used on lines 59-60), on exact rationals. -/
def roundHalfEven (q : ℚ) : ℤ :=
  if q - ⌊q⌋ < 1/2 then ⌊q⌋
  else if 1/2 < q - ⌊q⌋ then ⌊q⌋ + 1
  else if ⌊q⌋ % 2 = 0 then ⌊q⌋ else ⌊q⌋ + 1

/-- Python's `round(x, 2)` on exact rationals: round `100 * x` to the
nearest integer (ties to even) and divide by 100. -/
def round2 (q : ℚ) : ℚ := (roundHalfEven (q * 100) : ℚ) / 100

/-- Lines 49-55 of the source: the classification block of
`analyze_sentiment`, applied to the raw polarity. -/
def classify (polarity : ℚ) : String :=
  if polarity > 1/10 then "positive"
  else if polarity < -(1/10) then "negative"
  else "neutral"

/-- The dict returned by `analyze_sentiment` (lines 57-61). -/
structure SentimentResult where
  sentiment : String
  polarity : ℚ
  subjectivity : ℚ
deriving DecidableEq, Repr

/-- Lines 44-61: `analyze_sentiment`. Classifies from the raw polarity
and returns the class together with polarity and subjectivity rounded to
2 decimal places. -/
def analyze_sentiment (scoreCap : String → ℚ × ℚ) (text : String) :
    SentimentResult :=
  let polarity := (scoreCap text).1
  { sentiment := classify polarity
    polarity := round2 polarity
    subjectivity := round2 (scoreCap text).2 }

/-- The dict returned by `process_comment` (lines 79-84). -/
structure AnalysisRecord where
  original_text : String
  detected_language : String
  translated_text : String
  sentiment_analysis : SentimentResult
deriving DecidableEq, Repr

/-- Lines 63-84: `process_comment`. Detects the language; `if not lang`
(None or the falsy empty string) short-circuits to `None`; otherwise
translates, scores the translated text and assembles the record. -/
def process_comment (detectCap : String → Option String)
    (translateCap : String → String → Option String)
    (scoreCap : String → ℚ × ℚ) (comment_text : String) :
    Option AnalysisRecord :=
  match detect_language detectCap comment_text with
  | none => none
  | some lang =>
    if lang = "" then none
    else
      let translated_text := translate_to_english translateCap comment_text lang
      some { original_text := comment_text
             detected_language := lang
             translated_text := translated_text
             sentiment_analysis := analyze_sentiment scoreCap translated_text }

/-- Python's `len` on a string: the number of code points. -/
def pyLen (s : String) : Nat := s.data.length

/-- Python's slice `s[:n]`: the first `n` code points. -/
def pyTake (s : String) (n : Nat) : String := ⟨s.data.take n⟩

/-- Line 108 of the source: the display form of the original text,
`result['original_text'][:50] + "..." if len(...) > 50 else ...`. -/
def truncDisplay (s : String) : String :=
  if pyLen s > 50 then pyTake s 50 ++ "..." else s

/-- Line 109: `"German" if result['detected_language'] == 'de' else "Spanish"`. -/
def langName (code : String) : String :=
  if code = "de" then "German" else "Spanish"

/-- Python's `str.upper()` as used on line 110; the sentiment classes are
ASCII, where upper-casing is code-point-wise `Char.toUpper`. -/
def pyUpper (s : String) : String := ⟨s.data.map Char.toUpper⟩

/-- Python's default string form of a float that is an exact multiple of
0.01 (the only polarity values reaching line 113, since the record stores
`round(polarity, 2)`): the shortest decimal representation, i.e. the
2-decimal form with a trailing zero dropped, and at least one digit after
the point. -/
def pyFloatStr (q : ℚ) : String :=
  let n : ℤ := roundHalfEven (q * 100)
  let a : Nat := n.natAbs
  let intPart : Nat := a / 100
  let frac : Nat := a % 100
  let fracStr : String :=
    if frac % 10 = 0 then toString (frac / 10)
    else if frac < 10 then "0" ++ toString frac
    else toString frac
  (if n < 0 then "-" else "") ++ toString intPart ++ "." ++ fracStr

/-- Lines 107-113: one row of the report table built in the loop body of
`post_sentiment_comment`. -/
def renderRow (result : AnalysisRecord) : String :=
  "| " ++ truncDisplay result.original_text ++ " | "
    ++ langName result.detected_language ++ " | "
    ++ pyUpper result.sentiment_analysis.sentiment ++ " | "
    ++ pyFloatStr result.sentiment_analysis.polarity ++ " |\n"

/-- Lines 103-105: the fixed header of the report body. -/
def reportHeader : String :=
  "## Sentiment Analysis Report\n\n"
    ++ "| Original | Language | Sentiment | Polarity |\n"
    ++ "|----------|----------|-----------|----------|\n"

/-- Lines 97-113: `post_sentiment_comment`, modelled up to the posting
boundary: `none` is the early return on an empty result list (nothing is
built or posted), `some body` is the comment body handed to the HTTP
post. The for-loop appends one row per record in list order. -/
def post_sentiment_comment (analysis_results : List AnalysisRecord) :
    Option String :=
  if analysis_results.isEmpty then none
  else some (reportHeader ++ String.join (analysis_results.map renderRow))

/-! Helper lemmas shared by the claim theorems. -/

theorem detect_language_mem {d : String → Option String} {text lang : String}
    (h : detect_language d text = some lang) : lang ∈ SUPPORTED_LANGUAGES := by
  unfold detect_language at h
  cases hd : d text with
  | none => rw [hd] at h; exact absurd h (by simp)
  | some l =>
    rw [hd] at h
    by_cases hm : l ∈ SUPPORTED_LANGUAGES
    · simp only [hm, if_pos, Option.some.injEq] at h
      exact h ▸ hm
    · simp [hm] at h

theorem detect_language_ne_empty {d : String → Option String}
    {text lang : String} (h : detect_language d text = some lang) :
    lang ≠ "" := by
  have hm := detect_language_mem h
  simp only [SUPPORTED_LANGUAGES, List.mem_cons, List.not_mem_nil, or_false,
    List.mem_singleton] at hm
  rcases hm with rfl | rfl <;> decide

theorem process_comment_some_elim {d : String → Option String}
    {t : String → String → Option String} {s : String → ℚ × ℚ}
    {text : String} {rec : AnalysisRecord}
    (h : process_comment d t s text = some rec) :
    ∃ lang, detect_language d text = some lang ∧
      rec = { original_text := text
              detected_language := lang
              translated_text := translate_to_english t text lang
              sentiment_analysis :=
                analyze_sentiment s (translate_to_english t text lang) } := by
  unfold process_comment at h
  cases hd : detect_language d text with
  | none => rw [hd] at h; exact absurd h (by simp)
  | some lang =>
    rw [hd] at h
    have hne : lang ≠ "" := detect_language_ne_empty hd
    dsimp only at h
    rw [if_neg hne] at h
    exact ⟨lang, rfl, (Option.some.inj h).symm⟩

/-- C1: `process_comment` returns `none` (Skipped) exactly when language
detection yields Unsupported; when a supported language is detected, the
record keeps the input text unaltered in `original_text`, the detected
value in `detected_language`, the translation of (text, language) in
`translated_text`, and the sentiment score of the translated text. -/
theorem process_comment_skips_iff_unsupported
    (d : String → Option String) (t : String → String → Option String)
    (s : String → ℚ × ℚ) (text : String) :
    (process_comment d t s text = none ↔ detect_language d text = none) ∧
    ∀ lang, detect_language d text = some lang →
      process_comment d t s text = some
        { original_text := text
          detected_language := lang
          translated_text := translate_to_english t text lang
          sentiment_analysis :=
            analyze_sentiment s (translate_to_english t text lang) } := by
  have hbuild : ∀ lang, detect_language d text = some lang →
      process_comment d t s text = some
        { original_text := text
          detected_language := lang
          translated_text := translate_to_english t text lang
          sentiment_analysis :=
            analyze_sentiment s (translate_to_english t text lang) } := by
    intro lang hd
    have hne := detect_language_ne_empty hd
    unfold process_comment
    rw [hd]
    dsimp only
    rw [if_neg hne]
  refine ⟨⟨?_, ?_⟩, hbuild⟩
  · intro h
    cases hd : detect_language d text with
    | none => rfl
    | some lang =>
      rw [hbuild lang hd] at h
      exact absurd h (by simp)
  · intro h
    unfold process_comment
    rw [h]

/-- Witness for C1 at a concrete detector, translator and scorer. -/
theorem process_comment_skips_iff_unsupported_witness :
    process_comment (fun _ => some "de") (fun x _ => some (x ++ "!"))
      (fun _ => ((0 : ℚ), (0 : ℚ))) "Hallo" = some
        { original_text := "Hallo"
          detected_language := "de"
          translated_text := "Hallo!"
          sentiment_analysis :=
            analyze_sentiment (fun _ => ((0 : ℚ), (0 : ℚ))) "Hallo!" } :=
  (process_comment_skips_iff_unsupported (fun _ => some "de")
    (fun x _ => some (x ++ "!")) (fun _ => ((0 : ℚ), (0 : ℚ))) "Hallo").2
    "de" (by decide)

/-- C2: the sentiment class is a pure function of the raw, unrounded
polarity with a ±0.10 dead zone: above 0.10 positive, below −0.10
negative, otherwise neutral; polarity 0.10 is neutral, 0.11 positive,
−0.11 negative, 0.104 positive and 0.096 neutral even though both round
to the displayed value 0.10. -/
theorem classification_uses_raw_polarity (s : String → ℚ × ℚ)
    (text : String) :
    (analyze_sentiment s text).sentiment = classify (s text).1 ∧
    classify (1/10) = "neutral" ∧
    classify (11/100) = "positive" ∧
    classify (-(11/100)) = "negative" ∧
    classify (104/1000) = "positive" ∧
    classify (96/1000) = "neutral" ∧
    round2 (104/1000) = 1/10 ∧
    round2 (96/1000) = 1/10 ∧
    (∀ p : ℚ, 1/10 < p → classify p = "positive") ∧
    (∀ p : ℚ, p < -(1/10) → classify p = "negative") ∧
    (∀ p : ℚ, -(1/10) ≤ p → p ≤ 1/10 → classify p = "neutral") := by
  refine ⟨rfl, by norm_num [classify], by norm_num [classify],
    by norm_num [classify], by norm_num [classify], by norm_num [classify],
    by norm_num [round2, roundHalfEven], by norm_num [round2, roundHalfEven],
    ?_, ?_, ?_⟩
  · intro p hp
    unfold classify
    rw [if_pos hp]
  · intro p hp
    have h1 : ¬ (p > 1/10) := by linarith
    unfold classify
    rw [if_neg h1, if_pos hp]
  · intro p h1 h2
    have hh1 : ¬ (p > 1/10) := by linarith
    have hh2 : ¬ (p < -(1/10)) := by linarith
    unfold classify
    rw [if_neg hh1, if_neg hh2]

/-- Witness for C2 at concrete polarities in each band. -/
theorem classification_uses_raw_polarity_witness :
    classify 1 = "positive" ∧ classify (-1) = "negative" ∧
    classify 0 = "neutral" := by
  have h := classification_uses_raw_polarity (fun _ => ((0 : ℚ), (0 : ℚ))) ""
  exact ⟨h.2.2.2.2.2.2.2.2.1 1 (by norm_num),
    h.2.2.2.2.2.2.2.2.2.1 (-1) (by norm_num),
    h.2.2.2.2.2.2.2.2.2.2 0 (by norm_num) (by norm_num)⟩

/-- C3: when the translation capability always fails, `translate_to_english`
returns the input unchanged, and `process_comment` still produces the full
record for a comment whose language is supported — translation failure
alone never causes a skip. -/
theorem translation_failure_falls_back
    (d : String → Option String) (t : String → String → Option String)
    (s : String → ℚ × ℚ) (text lang : String)
    (hfail : ∀ x src, t x src = none)
    (hdet : detect_language d text = some lang) :
    translate_to_english t text lang = text ∧
    process_comment d t s text = some
      { original_text := text
        detected_language := lang
        translated_text := text
        sentiment_analysis := analyze_sentiment s text } := by
  have htr : translate_to_english t text lang = text := by
    unfold translate_to_english
    rw [hfail]
  have hne := detect_language_ne_empty hdet
  refine ⟨htr, ?_⟩
  unfold process_comment
  rw [hdet]
  dsimp only
  rw [if_neg hne, htr]

/-- Witness for C3 with an always-failing translator. -/
theorem translation_failure_falls_back_witness :
    translate_to_english (fun _ _ => none) "hola" "es" = "hola" ∧
    process_comment (fun _ => some "es") (fun _ _ => none)
      (fun _ => ((0 : ℚ), (0 : ℚ))) "hola" = some
        { original_text := "hola"
          detected_language := "es"
          translated_text := "hola"
          sentiment_analysis :=
            analyze_sentiment (fun _ => ((0 : ℚ), (0 : ℚ))) "hola" } :=
  translation_failure_falls_back (fun _ => some "es") (fun _ _ => none)
    (fun _ => ((0 : ℚ), (0 : ℚ))) "hola" "es" (fun _ _ => rfl) (by decide)

/-- C4: `detect_language` returns a code exactly when the capability
detects it and it lies in `SUPPORTED_LANGUAGES` (which is exactly
de and es); a detection failure is normalized to `none`, and the
function is total (never raises). -/
theorem detect_language_allowlist (d : String → Option String)
    (text : String) :
    (∀ lang, detect_language d text = some lang ↔
      d text = some lang ∧ lang ∈ SUPPORTED_LANGUAGES) ∧
    (d text = none → detect_language d text = none) ∧
    SUPPORTED_LANGUAGES = ["de", "es"] := by
  refine ⟨?_, ?_, rfl⟩
  · intro lang
    unfold detect_language
    cases hd : d text with
    | none => simp
    | some l =>
      dsimp only
      by_cases hm : l ∈ SUPPORTED_LANGUAGES
      · rw [if_pos hm]
        simp only [Option.some.injEq]
        constructor
        · rintro rfl
          exact ⟨rfl, hm⟩
        · rintro ⟨he, _⟩
          exact he
      · rw [if_neg hm]
        constructor
        · intro h
          exact absurd h (by simp)
        · rintro ⟨he, hmem⟩
          obtain rfl := Option.some.inj he
          exact absurd hmem hm
  · intro h
    unfold detect_language
    rw [h]

/-- Witness for C4: a failing detector is normalized to Unsupported. -/
theorem detect_language_allowlist_witness :
    detect_language (fun _ => none) "" = none :=
  (detect_language_allowlist (fun _ => none) "").2.1 rfl

/-- C5: the report has exactly one row per record, rows keep the input
order (row i renders record i), and on the empty record list the builder
is a no-op (nothing is produced or posted) rather than an error. -/
theorem report_rows_preserve_order (results : List AnalysisRecord) :
    (results.map renderRow).length = results.length ∧
    (∀ i : Nat, (results.map renderRow)[i]? =
      (results[i]?).map renderRow) ∧
    post_sentiment_comment [] = none ∧
    (results ≠ [] → post_sentiment_comment results =
      some (reportHeader ++ String.join (results.map renderRow))) := by
  refine ⟨results.length_map renderRow, ?_, rfl, ?_⟩
  · intro i
    simp [List.getElem?_map]
  · intro h
    cases results with
    | nil => exact absurd rfl h
    | cons a l => rfl

/-- Witness for C5 on a one-record list. -/
theorem report_rows_preserve_order_witness :
    post_sentiment_comment
      [{ original_text := "hola"
         detected_language := "es"
         translated_text := "hello"
         sentiment_analysis :=
           { sentiment := "neutral", polarity := 0, subjectivity := 0 } }] =
    some (reportHeader ++ String.join (List.map renderRow
      [{ original_text := "hola"
         detected_language := "es"
         translated_text := "hello"
         sentiment_analysis :=
           { sentiment := "neutral", polarity := 0, subjectivity := 0 } }])) :=
  (report_rows_preserve_order _).2.2.2 (by simp)

/-- C6, corrected: classification happens before rounding (the stored
class is `classify` of the raw polarity), but the record produced by
`process_comment` stores polarity and subjectivity already rounded to 2
decimals inside `analyze_sentiment`; the report then renders the stored,
rounded value. -/
theorem record_stores_rounded_scores
    (d : String → Option String) (t : String → String → Option String)
    (s : String → ℚ × ℚ) (text : String) (rec : AnalysisRecord)
    (h : process_comment d t s text = some rec) :
    rec.sentiment_analysis.sentiment = classify (s rec.translated_text).1 ∧
    rec.sentiment_analysis.polarity = round2 (s rec.translated_text).1 ∧
    rec.sentiment_analysis.subjectivity = round2 (s rec.translated_text).2 := by
  obtain ⟨lang, _, rfl⟩ := process_comment_some_elim h
  exact ⟨rfl, rfl, rfl⟩

/-- Counterexample to C6 as stated: for a scorer reporting raw polarity
0.104 and subjectivity 0.003, the record produced by `process_comment`
holds polarity 0.10 and subjectivity 0.0, not the unrounded values (while
the class is computed from the raw 0.104, hence positive). -/
theorem record_polarity_rounded_counterexample :
    process_comment (fun _ => some "de") (fun x _ => some x)
      (fun _ => ((104 : ℚ)/1000, (3 : ℚ)/1000)) "gut" = some
        { original_text := "gut"
          detected_language := "de"
          translated_text := "gut"
          sentiment_analysis :=
            { sentiment := "positive", polarity := 1/10,
              subjectivity := 0 } } ∧
    ((1 : ℚ)/10 ≠ 104/1000) ∧ ((0 : ℚ) ≠ 3/1000) := by
  refine ⟨?_, by norm_num, by norm_num⟩
  have hd : detect_language (fun _ => some "de") "gut" = some "de" := by
    decide
  unfold process_comment
  rw [hd]
  dsimp only
  rw [if_neg (by decide : ¬ ("de" : String) = "")]
  norm_num [translate_to_english, analyze_sentiment, classify, round2,
    roundHalfEven]

/-- Witness for the corrected C6 at a concrete pipeline run. -/
theorem record_stores_rounded_scores_witness :
    ({ original_text := "ok"
       detected_language := "es"
       translated_text := "ok"
       sentiment_analysis :=
         { sentiment := "neutral", polarity := 0, subjectivity := 0 } } :
      AnalysisRecord).sentiment_analysis.sentiment =
      classify ((fun _ => ((0 : ℚ), (0 : ℚ)))
        ({ original_text := "ok"
           detected_language := "es"
           translated_text := "ok"
           sentiment_analysis :=
             { sentiment := "neutral", polarity := 0, subjectivity := 0 } } :
          AnalysisRecord).translated_text).1 := by
  refine (record_stores_rounded_scores (fun _ => some "es")
    (fun _ _ => none) (fun _ => ((0 : ℚ), (0 : ℚ))) "ok" _ ?_).1
  have hd : detect_language (fun _ => some "es") "ok" = some "es" := by
    decide
  unfold process_comment
  rw [hd]
  dsimp only
  rw [if_neg (by decide : ¬ ("es" : String) = "")]
  norm_num [translate_to_english, analyze_sentiment, classify, round2,
    roundHalfEven]

/-- C7, corrected: each row renders the language via the fixed lookup,
the sentiment class upper-cased, and the polarity by Python's default
float formatting of the stored 2-decimal value, which drops a trailing
zero: 0.8 is displayed as 0.8, not 0.80. -/
theorem report_row_rendering (r : AnalysisRecord) :
    renderRow r = "| " ++ truncDisplay r.original_text ++ " | "
      ++ langName r.detected_language ++ " | "
      ++ pyUpper r.sentiment_analysis.sentiment ++ " | "
      ++ pyFloatStr r.sentiment_analysis.polarity ++ " |\n" ∧
    langName "de" = "German" ∧ langName "es" = "Spanish" ∧
    pyUpper "positive" = "POSITIVE" ∧ pyUpper "negative" = "NEGATIVE" ∧
    pyUpper "neutral" = "NEUTRAL" ∧
    pyFloatStr (4/5) = "0.8" ∧ pyFloatStr (-(11/100)) = "-0.11" ∧
    pyFloatStr (1/10) = "0.1" := by
  refine ⟨rfl, by decide, by decide, by decide, by decide, by decide,
    ?_, ?_, ?_⟩
  · have h : roundHalfEven ((4 : ℚ)/5 * 100) = 80 := by
      norm_num [roundHalfEven]
    simp only [pyFloatStr, h]
    decide
  · have h : roundHalfEven (-((11 : ℚ)/100) * 100) = -11 := by
      norm_num [roundHalfEven]
    simp only [pyFloatStr, h]
    decide
  · have h : roundHalfEven ((1 : ℚ)/10 * 100) = 10 := by
      norm_num [roundHalfEven]
    simp only [pyFloatStr, h]
    decide

/-- Counterexample to C7 as stated: the row for the record of the
spec's end-to-end scenario (stored polarity 0.80) displays the polarity
as 0.8 and the untruncated 18-character text, not the claimed row with
polarity 0.80. -/
theorem polarity_display_counterexample :
    renderRow { original_text := "Das ist großartig!"
                detected_language := "de"
                translated_text := "That is great!"
                sentiment_analysis :=
                  { sentiment := "positive", polarity := 4/5,
                    subjectivity := 3/4 } } =
      "| Das ist großartig! | German | POSITIVE | 0.8 |\n" ∧
    "| Das ist großartig! | German | POSITIVE | 0.8 |\n" ≠
      "| Das ist großartig!... | German | POSITIVE | 0.80 |\n" := by
  have hp : pyFloatStr ((4 : ℚ)/5) = "0.8" := by
    have h : roundHalfEven ((4 : ℚ)/5 * 100) = 80 := by
      norm_num [roundHalfEven]
    simp only [pyFloatStr, h]
    decide
  refine ⟨?_, by decide⟩
  unfold renderRow
  dsimp only
  rw [hp]
  decide

/-- C8: a row displays the original text truncated to its first 50 code
points plus an ellipsis marker exactly when the text is longer than 50
code points; shorter texts appear unchanged; and truncation is
display-only, since the record keeps the full input text. -/
theorem truncation_display_only (s : String)
    (d : String → Option String) (t : String → String → Option String)
    (sc : String → ℚ × ℚ) (rec : AnalysisRecord) :
    (truncDisplay s = pyTake s 50 ++ "..." ↔ 50 < pyLen s) ∧
    (pyLen s ≤ 50 → truncDisplay s = s) ∧
    (process_comment d t sc s = some rec → rec.original_text = s) := by
  have hlen : pyLen (pyTake s 50 ++ "...") = min 50 (pyLen s) + 3 := by
    simp [pyLen, pyTake, String.data_append]
  refine ⟨⟨?_, ?_⟩, ?_, ?_⟩
  · intro he
    by_contra hnot
    push_neg at hnot
    unfold truncDisplay at he
    rw [if_neg (by omega)] at he
    have hc := congrArg pyLen he
    rw [hlen] at hc
    omega
  · intro h
    unfold truncDisplay
    rw [if_pos h]
  · intro h
    unfold truncDisplay
    rw [if_neg (by omega)]
  · intro h
    obtain ⟨lang, _, rfl⟩ := process_comment_some_elim h
    rfl

/-- Witness for C8 on a 60-character and a 5-character text. -/
theorem truncation_display_only_witness :
    truncDisplay
      "aaaaaaaaaaaaaaaaaaaaaaaaaaaaaaaaaaaaaaaaaaaaaaaaaaaaaaaaaaaa" =
      pyTake
        "aaaaaaaaaaaaaaaaaaaaaaaaaaaaaaaaaaaaaaaaaaaaaaaaaaaaaaaaaaaa"
        50 ++ "..." ∧
    truncDisplay "short" = "short" :=
  ⟨(truncation_display_only
      "aaaaaaaaaaaaaaaaaaaaaaaaaaaaaaaaaaaaaaaaaaaaaaaaaaaaaaaaaaaa"
      (fun _ => none) (fun _ _ => none) (fun _ => ((0 : ℚ), (0 : ℚ)))
      { original_text := ""
        detected_language := ""
        translated_text := ""
        sentiment_analysis :=
          { sentiment := "", polarity := 0, subjectivity := 0 } }).1.mpr
      (by decide),
   (truncation_display_only "short"
      (fun _ => none) (fun _ _ => none) (fun _ => ((0 : ℚ), (0 : ℚ)))
      { original_text := ""
        detected_language := ""
        translated_text := ""
        sentiment_analysis :=
          { sentiment := "", polarity := 0, subjectivity := 0 } }).2.1
      (by decide)⟩

/-- C9: subjectivity never influences classification — two runs of the
scorer that agree on polarity yield the same sentiment class, whatever
their subjectivity values. -/
theorem subjectivity_noninterference (s1 s2 : String → ℚ × ℚ)
    (t1 t2 : String) (h : (s1 t1).1 = (s2 t2).1) :
    (analyze_sentiment s1 t1).sentiment =
      (analyze_sentiment s2 t2).sentiment := by
  show classify (s1 t1).1 = classify (s2 t2).1
  rw [h]

/-- Witness for C9: equal polarity 0.5, subjectivity 0 versus 1. -/
theorem subjectivity_noninterference_witness :
    (analyze_sentiment (fun _ => ((1 : ℚ)/2, 0)) "a").sentiment =
      (analyze_sentiment (fun _ => ((1 : ℚ)/2, 1)) "b").sentiment :=
  subjectivity_noninterference (fun _ => ((1 : ℚ)/2, 0))
    (fun _ => ((1 : ℚ)/2, 1)) "a" "b" rfl

/-- C10: any record whose detected language is not exactly de — even a
code outside the supported set — renders the language name Spanish; the
builder never fails and never renders a blank name. -/
theorem unmapped_language_renders_spanish (r : AnalysisRecord)
    (h : r.detected_language ≠ "de") :
    langName r.detected_language = "Spanish" ∧
    langName r.detected_language ≠ "" ∧
    renderRow r = "| " ++ truncDisplay r.original_text ++ " | "
      ++ "Spanish" ++ " | "
      ++ pyUpper r.sentiment_analysis.sentiment ++ " | "
      ++ pyFloatStr r.sentiment_analysis.polarity ++ " |\n" := by
  have hl : langName r.detected_language = "Spanish" := by
    unfold langName
    rw [if_neg h]
  refine ⟨hl, ?_, ?_⟩
  · rw [hl]
    decide
  · unfold renderRow
    rw [hl]

/-- Witness for C10 on a record with the unsupported code fr. -/
theorem unmapped_language_renders_spanish_witness :
    langName ({ original_text := "bon"
                detected_language := "fr"
                translated_text := "good"
                sentiment_analysis :=
                  { sentiment := "positive", polarity := 1/2,
                    subjectivity := 0 } } :
      AnalysisRecord).detected_language = "Spanish" :=
  (unmapped_language_renders_spanish
    { original_text := "bon"
      detected_language := "fr"
      translated_text := "good"
      sentiment_analysis :=
        { sentiment := "positive", polarity := 1/2, subjectivity := 0 } }
    (by decide)).1

end SentimentAnalysis
